import Mathlib

/-!
Verification of the campaign-provisioning service in src/main.py.

The file shallowly embeds the request model, the payload builders of each
remote Google Ads mutation, and the provisioning chain of the
create_campaign endpoint.  Remote calls are modelled by an oracle
structure AdsAPI whose fields give, for each mutation payload, either the
resource name the platform would return or an error; running the chain
against an oracle yields the list of attempted remote operations (the
trace) together with the HTTP-level result the endpoint produces.
-/

namespace PublishGACampaign

/-- The request body of the create_campaign endpoint
(class CampaignRequest, src/main.py lines 170-215), after field
validation.  The budget field holds the already-converted integer value
(see convert_budget below). -/
structure CampaignRequest where
  refresh_token : String
  campaign_name : String
  campaign_description : String
  objective : String
  cover_photo : String
  final_url : String
  keyword1 : String
  keyword2 : String
  keyword3 : String
  budget : Int
  start_date : String
  end_date : String
  price_model : String
  campaign_type : String
  audience_gender : String
  audience_min_age : Int
  audience_max_age : Int
  devices : List String
deriving DecidableEq, Repr

/-- ASCII upper-casing of one character, as Python str.upper acts on the
ASCII texts handled by the service. -/
def charUpper (c : Char) : Char :=
  if 'a' ≤ c ∧ c ≤ 'z' then Char.ofNat (c.toNat - 32) else c

/-- Python str.upper on ASCII text. -/
def pyUpper (s : String) : String :=
  ⟨s.data.map charUpper⟩

/-- Python str.strip with no argument: remove whitespace from both ends. -/
def pyStrip (s : String) : String :=
  ⟨((s.data.dropWhile Char.isWhitespace).reverse.dropWhile Char.isWhitespace).reverse⟩

/-- Python str.startswith. -/
def pyStartsWith (s pre : String) : Bool :=
  pre.data == s.data.take pre.data.length

/-- Python str.replace of a one-character pattern by the empty string:
drop every occurrence of the character. -/
def removeChar (c : Char) (s : String) : String :=
  ⟨s.data.filter (fun a => a ≠ c)⟩

/-- A raw JSON value arriving in the budget field: either a JSON number or
a JSON string. -/
inductive BudgetJson where
  | num (n : Int)
  | str (s : String)
deriving DecidableEq, Repr

/-- Numeric value of a list of decimal digit characters. -/
def digitsVal (l : List Char) : Nat :=
  l.foldl (fun n c => 10 * n + (c.toNat - 48)) 0

/-- Parse a non-empty all-digit string; any other string fails (in the
source, float raises ValueError, surfacing as a validation error). -/
def parseDigits (s : String) : Option Nat :=
  if s ≠ "" ∧ s.data.all Char.isDigit then some (digitsVal s.data) else none

/-- Models CampaignRequest.convert_budget (src/main.py lines 192-199).
A string value has every dollar sign removed, is stripped, converted to a
number and multiplied by 1,000,000 (the float conversion of the source is
exact on the integer-valued strings modelled here); a non-string value is
returned unchanged.  none models the ValueError of a non-numeric string. -/
def convert_budget : BudgetJson → Option Int
  | .num n => some n
  | .str s =>
    (parseDigits (pyStrip (removeChar (Char.ofNat 36) s))).map
      fun (n : Nat) => (n : Int) * 1000000

/-- Payload of the CampaignBudget mutation built by create_campaign_budget
(src/main.py lines 217-231).  The uuid-based name field is omitted. -/
structure CampaignBudgetOp where
  amount_micros : Int
  delivery_method : String
deriving DecidableEq, Repr

/-- The budget payload: amount_micros is the budget value of the request,
used directly (line 223). -/
def campaign_budget_payload (budget_micros : Int) : CampaignBudgetOp :=
  { amount_micros := budget_micros, delivery_method := "STANDARD" }

/-- Payload of the Campaign mutation built by create_campaign_resource
(src/main.py lines 233-256).  The uuid-suffixed name is omitted. -/
structure CampaignOp where
  advertising_channel_type : String
  status : String
  campaign_budget : String
  start_date : String
  end_date : String
  bidding : String
deriving DecidableEq, Repr

/-- The campaign payload (lines 237-249): DISPLAY channel when the
campaign_type field upper-cases to DISPLAY, SEARCH otherwise; status
ENABLED; the campaign_budget field is the budget resource name. -/
def campaign_resource_payload (budget_resource_name : String) (data : CampaignRequest) :
    CampaignOp :=
  { advertising_channel_type :=
      if pyUpper data.campaign_type = "DISPLAY" then "DISPLAY" else "SEARCH"
    status := "ENABLED"
    campaign_budget := budget_resource_name
    start_date := data.start_date
    end_date := data.end_date
    bidding := "ManualCpc" }

/-- Payload of the AdGroup mutation built by create_ad_group
(src/main.py lines 258-274). -/
structure AdGroupOp where
  campaign : String
  status : String
  ad_group_type : String
  cpc_bid_micros : Int
deriving DecidableEq, Repr

/-- The ad-group payload (lines 262-267). -/
def ad_group_payload (campaign_resource_name : String) : AdGroupOp :=
  { campaign := campaign_resource_name
    status := "ENABLED"
    ad_group_type := "DISPLAY_STANDARD"
    cpc_bid_micros := 1000000 }

/-- Payload of one AdGroupCriterion keyword mutation built by
make_keyword_op inside create_ad_group_keywords (src/main.py lines 280-288). -/
structure AdGroupCriterionOp where
  ad_group : String
  status : String
  text : String
  match_type : String
deriving DecidableEq, Repr

/-- The keyword payloads (lines 289-291): one operation per non-empty
keyword among keyword1, keyword2, keyword3, in that order. -/
def keyword_payloads (ad_group_resource_name : String) (data : CampaignRequest) :
    List AdGroupCriterionOp :=
  ([data.keyword1, data.keyword2, data.keyword3].filter (fun kw => kw ≠ "")).map
    fun kw =>
      { ad_group := ad_group_resource_name
        status := "ENABLED"
        text := kw
        match_type := "BROAD" }

/-- Payload of the AdGroupAd mutation built by create_responsive_display_ad
(src/main.py lines 299-367). -/
structure AdGroupAdOp where
  ad_group : String
  status : String
  final_urls : List String
  headlines : List String
  descriptions : List String
  business_name : String
  long_headline : String
  marketing_images : List String
  square_marketing_images : List String
deriving DecidableEq, Repr

/-- The responsive display ad payload (lines 303-358): headline 1 is
keyword1 when non-empty, else the stripped campaign name; headlines 2 and 3
are keyword2 and keyword3; the two descriptions are the campaign
description and the objective; the business name is the stripped campaign
name; the long headline concatenates stripped campaign name and stripped
objective.  No text field is shortened anywhere. -/
def responsive_display_ad_payload (ad_group_resource_name : String)
    (marketing_asset square_asset : String) (data : CampaignRequest) : AdGroupAdOp :=
  { ad_group := ad_group_resource_name
    status := "ENABLED"
    final_urls := [data.final_url]
    headlines :=
      [ if data.keyword1 = "" then pyStrip data.campaign_name else data.keyword1,
        data.keyword2,
        data.keyword3 ]
    descriptions := [data.campaign_description, data.objective]
    business_name := pyStrip data.campaign_name
    long_headline := pyStrip data.campaign_name ++ " - " ++ pyStrip data.objective
    marketing_images := [marketing_asset]
    square_marketing_images := [square_asset] }

/-- A CampaignCriterion payload as the platform model allows it: the
source only ever constructs the gender form (src/main.py lines 384-392);
age-range and device criteria are expressible but never built. -/
inductive CampaignCriterionOp where
  | gender (campaign : String) (gender_type : String) (negative : Bool) (status : String)
  | ageRange (campaign : String) (range : String) (negative : Bool) (status : String)
  | device (campaign : String) (device_type : String) (negative : Bool) (status : String)
deriving DecidableEq, Repr

/-- Whether a criterion payload is a negative (exclusion) criterion. -/
def CampaignCriterionOp.isNegative : CampaignCriterionOp → Bool
  | .gender _ _ n _ => n
  | .ageRange _ _ n _ => n
  | .device _ _ n _ => n

/-- Whether a criterion payload is an age-range criterion. -/
def CampaignCriterionOp.isAgeRange : CampaignCriterionOp → Bool
  | .ageRange _ _ _ _ => true
  | _ => false

/-- The campaign the criterion attaches to. -/
def CampaignCriterionOp.campaignOf : CampaignCriterionOp → String
  | .gender c _ _ _ => c
  | .ageRange c _ _ _ => c
  | .device c _ _ _ => c

/-- The criterion payloads built by apply_targeting_criteria
(src/main.py lines 372-398): when the audience_gender field is non-empty
and upper-cases to MALE or FEMALE, one negative ENABLED gender criterion
per excluded gender (MALE excludes FEMALE and UNDETERMINED; FEMALE
excludes MALE and UNDETERMINED); otherwise no criterion at all. -/
def targeting_payloads (campaign_resource_name : String) (data : CampaignRequest) :
    List CampaignCriterionOp :=
  if data.audience_gender ≠ "" ∧
      (pyUpper data.audience_gender = "MALE" ∨ pyUpper data.audience_gender = "FEMALE") then
    (if pyUpper data.audience_gender = "MALE" then
        ["FEMALE", "UNDETERMINED"]
      else
        ["MALE", "UNDETERMINED"]).map
      fun g => .gender campaign_resource_name g true "ENABLED"
  else []

/-- One attempted remote mutation, as recorded in the trace of a
provisioning run.  The source only ever emits the create and upload forms;
removeResource and updateStatus stand for the delete and pause/disable
mutations the platform offers, which the source never calls. -/
inductive RemoteOp where
  | createBudget (op : CampaignBudgetOp)
  | createCampaign (op : CampaignOp)
  | createAdGroup (op : AdGroupOp)
  | createKeywords (ops : List AdGroupCriterionOp)
  | uploadImageAsset (url : String)
  | uploadSquareImageAsset (url : String)
  | createAd (op : AdGroupAdOp)
  | createCriteria (ops : List CampaignCriterionOp)
  | removeResource (resource : String)
  | updateStatus (resource : String) (status : String)
deriving DecidableEq, Repr

/-- Whether an operation deletes, pauses or disables an existing remote
resource (a rollback-style mutation). -/
def RemoteOp.isRollback : RemoteOp → Bool
  | .removeResource _ => true
  | .updateStatus _ _ => true
  | _ => false

/-- Position of each operation in the provisioning order of
create_campaign (src/main.py lines 419-424); asset uploads happen inside
the creative step, before the ad mutation. -/
def stepKind : RemoteOp → Nat
  | .createBudget _ => 0
  | .createCampaign _ => 1
  | .createAdGroup _ => 2
  | .createKeywords _ => 3
  | .uploadImageAsset _ => 4
  | .uploadSquareImageAsset _ => 5
  | .createAd _ => 6
  | .createCriteria _ => 7
  | .removeResource _ => 8
  | .updateStatus _ _ => 9

/-- An error raised by a remote call: a GoogleAdsException or any other
exception (download failure, decode failure, missing customer, ...). -/
inductive ApiError where
  | googleAds (msg : String)
  | generic (msg : String)
deriving DecidableEq, Repr

/-- Oracle for the remote platform: for each mutation payload, the
resource name (or result list) the platform returns, or the error the
call raises. -/
structure AdsAPI where
  customerId : Except ApiError String
  budgetResult : CampaignBudgetOp → Except ApiError String
  campaignResult : CampaignOp → Except ApiError String
  adGroupResult : AdGroupOp → Except ApiError String
  keywordsResult : List AdGroupCriterionOp → Except ApiError (List String)
  uploadMarketing : String → Except ApiError String
  uploadSquare : String → Except ApiError String
  adResult : AdGroupAdOp → Except ApiError String
  criteriaResult : List CampaignCriterionOp → Except ApiError (List String)

/-- Models create_campaign_budget (src/main.py lines 217-231): one
CampaignBudget mutation whose amount_micros is the budget value of the
request, taken as is. -/
def create_campaign_budget (api : AdsAPI) (budget_micros : Int) :
    List RemoteOp × Except ApiError String :=
  let op := campaign_budget_payload budget_micros
  ([RemoteOp.createBudget op], api.budgetResult op)

/-- Models create_campaign_resource (src/main.py lines 233-256): one
Campaign mutation referencing the budget resource name. -/
def create_campaign_resource (api : AdsAPI) (budget_resource_name : String)
    (data : CampaignRequest) : List RemoteOp × Except ApiError String :=
  let op := campaign_resource_payload budget_resource_name data
  ([RemoteOp.createCampaign op], api.campaignResult op)

/-- Models create_ad_group (src/main.py lines 258-274): one AdGroup
mutation referencing the campaign resource name. -/
def create_ad_group (api : AdsAPI) (campaign_resource_name : String) :
    List RemoteOp × Except ApiError String :=
  let op := ad_group_payload campaign_resource_name
  ([RemoteOp.createAdGroup op], api.adGroupResult op)

/-- Models create_ad_group_keywords (src/main.py lines 276-297): one
AdGroupCriterion mutation carrying every non-empty keyword; when all
keywords are empty no remote call is made at all (the source guards the
call with the non-emptiness of the operation list). -/
def create_ad_group_keywords (api : AdsAPI) (ad_group_resource_name : String)
    (data : CampaignRequest) : List RemoteOp × Except ApiError Unit :=
  let ops := keyword_payloads ad_group_resource_name data
  if ops.isEmpty then ([], Except.ok ())
  else ([RemoteOp.createKeywords ops], (api.keywordsResult ops).map fun _ => ())

/-- Models create_responsive_display_ad (src/main.py lines 299-367).
An empty cover_photo raises before any remote call of this step.  A
cover_photo starting with http is uploaded twice (processed cover asset,
then processed square asset) before the AdGroupAd mutation; any other
non-empty cover_photo is used directly as the asset resource name for
both image slots. -/
def create_responsive_display_ad (api : AdsAPI) (ad_group_resource_name : String)
    (data : CampaignRequest) : List RemoteOp × Except ApiError String :=
  if data.cover_photo = "" then
    ([], Except.error (ApiError.generic "O campo cover_photo esta vazio."))
  else if pyStartsWith data.cover_photo "http" then
    match api.uploadMarketing data.cover_photo with
    | .error e => ([RemoteOp.uploadImageAsset data.cover_photo], .error e)
    | .ok marketing_asset =>
      match api.uploadSquare data.cover_photo with
      | .error e =>
        ([RemoteOp.uploadImageAsset data.cover_photo,
          RemoteOp.uploadSquareImageAsset data.cover_photo], .error e)
      | .ok square_asset =>
        let op := responsive_display_ad_payload ad_group_resource_name
          marketing_asset square_asset data
        ([RemoteOp.uploadImageAsset data.cover_photo,
          RemoteOp.uploadSquareImageAsset data.cover_photo,
          RemoteOp.createAd op], api.adResult op)
  else
    let op := responsive_display_ad_payload ad_group_resource_name
      data.cover_photo data.cover_photo data
    ([RemoteOp.createAd op], api.adResult op)

/-- Models apply_targeting_criteria (src/main.py lines 372-398): one
CampaignCriterion mutation carrying the gender exclusions; when the list
is empty no remote call is made. -/
def apply_targeting_criteria (api : AdsAPI) (campaign_resource_name : String)
    (data : CampaignRequest) : List RemoteOp × Except ApiError Unit :=
  let ops := targeting_payloads campaign_resource_name data
  if ops.isEmpty then ([], Except.ok ())
  else ([RemoteOp.createCriteria ops], (api.criteriaResult ops).map fun _ => ())

/-- What the endpoint hands back to the caller: the success body of
src/main.py lines 425-430 (which carries the created resource names), or
the HTTPException status and detail raised by the except clauses. -/
inductive RunResult where
  | success (campaign_resource_name ad_group_resource_name ad_group_ad_resource_name : String)
  | httpError (status : Nat) (detail : String)
deriving DecidableEq, Repr

/-- The except clauses of create_campaign (src/main.py lines 431-436):
a GoogleAdsException becomes HTTP 400, any other exception HTTP 500. -/
def errResult : ApiError → RunResult
  | .googleAds msg => .httpError 400 ("GoogleAdsException: " ++ msg)
  | .generic msg => .httpError 500 msg

/-- Tail of the chain from the apply_targeting_criteria call of line 424
onwards: on success the endpoint returns the success body of lines
425-430 with the campaign, ad-group and ad resource names. -/
def run_targeting (api : AdsAPI) (data : CampaignRequest)
    (campaign_rn ad_group_rn ad_rn : String) : List RemoteOp × RunResult :=
  match apply_targeting_criteria api campaign_rn data with
  | (t, .error e) => (t, errResult e)
  | (t, .ok _) => (t, RunResult.success campaign_rn ad_group_rn ad_rn)

/-- Tail of the chain from the create_responsive_display_ad call of line
423 onwards. -/
def run_creative (api : AdsAPI) (data : CampaignRequest)
    (campaign_rn ad_group_rn : String) : List RemoteOp × RunResult :=
  match create_responsive_display_ad api ad_group_rn data with
  | (t, .error e) => (t, errResult e)
  | (t, .ok ad_rn) =>
    let next := run_targeting api data campaign_rn ad_group_rn ad_rn
    (t ++ next.1, next.2)

/-- Tail of the chain from the create_ad_group_keywords call of line 422
onwards. -/
def run_keywords (api : AdsAPI) (data : CampaignRequest)
    (campaign_rn ad_group_rn : String) : List RemoteOp × RunResult :=
  match create_ad_group_keywords api ad_group_rn data with
  | (t, .error e) => (t, errResult e)
  | (t, .ok _) =>
    let next := run_creative api data campaign_rn ad_group_rn
    (t ++ next.1, next.2)

/-- Tail of the chain from the create_ad_group call of line 421 onwards. -/
def run_ad_group (api : AdsAPI) (data : CampaignRequest)
    (campaign_rn : String) : List RemoteOp × RunResult :=
  match create_ad_group api campaign_rn with
  | (t, .error e) => (t, errResult e)
  | (t, .ok ad_group_rn) =>
    let next := run_keywords api data campaign_rn ad_group_rn
    (t ++ next.1, next.2)

/-- Tail of the chain from the create_campaign_resource call of line 420
onwards. -/
def run_campaign (api : AdsAPI) (data : CampaignRequest)
    (budget_rn : String) : List RemoteOp × RunResult :=
  match create_campaign_resource api budget_rn data with
  | (t, .error e) => (t, errResult e)
  | (t, .ok campaign_rn) =>
    let next := run_ad_group api data campaign_rn
    (t ++ next.1, next.2)

/-- The chain from the create_campaign_budget call of line 419 onwards. -/
def run_budget (api : AdsAPI) (data : CampaignRequest) :
    List RemoteOp × RunResult :=
  match create_campaign_budget api data.budget with
  | (t, .error e) => (t, errResult e)
  | (t, .ok budget_rn) =>
    let next := run_campaign api data budget_rn
    (t ++ next.1, next.2)

/-- Models the provisioning chain of the create_campaign endpoint
(src/main.py lines 416-436): obtain the customer id, then budget,
campaign, ad group, keywords, creative, targeting, each step consuming
the resource name produced by the step before it; the first exception
aborts the run and becomes the HTTP error of the response (400 for a
GoogleAdsException, 500 otherwise); on success the body carries the
campaign, ad-group and ad resource names.  The first component is the
trace of attempted remote operations, in order. -/
def create_campaign (api : AdsAPI) (data : CampaignRequest) :
    List RemoteOp × RunResult :=
  match api.customerId with
  | .error e => ([], errResult e)
  | .ok _customer_id => run_budget api data

/-- Whether the remote call behind an attempted operation succeeded under
the given oracle. -/
def attemptOk (api : AdsAPI) : RemoteOp → Prop
  | .createBudget b => ∃ r, api.budgetResult b = .ok r
  | .createCampaign c => ∃ r, api.campaignResult c = .ok r
  | .createAdGroup g => ∃ r, api.adGroupResult g = .ok r
  | .createKeywords k => ∃ r, api.keywordsResult k = .ok r
  | .uploadImageAsset u => ∃ r, api.uploadMarketing u = .ok r
  | .uploadSquareImageAsset u => ∃ r, api.uploadSquare u = .ok r
  | .createAd a => ∃ r, api.adResult a = .ok r
  | .createCriteria c => ∃ r, api.criteriaResult c = .ok r
  | .removeResource _ => False
  | .updateStatus _ _ => False

/-! Stage-by-stage description of the operations a run can attempt. -/

lemma mem_apply_targeting {api : AdsAPI} {c : String} {data : CampaignRequest}
    {op : RemoteOp} (h : op ∈ (apply_targeting_criteria api c data).1) :
    op = .createCriteria (targeting_payloads c data) := by
  unfold apply_targeting_criteria at h
  by_cases hemp : (targeting_payloads c data).isEmpty <;> simp [hemp] at h
  exact h

lemma mem_create_keywords {api : AdsAPI} {g : String} {data : CampaignRequest}
    {op : RemoteOp} (h : op ∈ (create_ad_group_keywords api g data).1) :
    op = .createKeywords (keyword_payloads g data) := by
  unfold create_ad_group_keywords at h
  by_cases hemp : (keyword_payloads g data).isEmpty <;> simp [hemp] at h
  exact h

lemma mem_create_creative {api : AdsAPI} {g : String} {data : CampaignRequest}
    {op : RemoteOp} (h : op ∈ (create_responsive_display_ad api g data).1) :
    op = .uploadImageAsset data.cover_photo ∨
    op = .uploadSquareImageAsset data.cover_photo ∨
    ∃ m s, op = .createAd (responsive_display_ad_payload g m s data) := by
  unfold create_responsive_display_ad at h
  by_cases hcov : data.cover_photo = "" <;> simp [hcov] at h
  by_cases hhttp : pyStartsWith data.cover_photo "http" <;> simp [hhttp] at h
  · rcases hup1 : api.uploadMarketing data.cover_photo with e | m <;> rw [hup1] at h <;>
      simp at h
    · tauto
    rcases hup2 : api.uploadSquare data.cover_photo with e | s <;> rw [hup2] at h <;>
      simp at h
    · tauto
    rcases h with h | h | h <;> [tauto; tauto; exact .inr (.inr ⟨m, s, h⟩)]
  · exact .inr (.inr ⟨data.cover_photo, data.cover_photo, h⟩)

lemma mem_run_targeting {api : AdsAPI} {data : CampaignRequest} {c g a : String}
    {op : RemoteOp} (h : op ∈ (run_targeting api data c g a).1) :
    op = .createCriteria (targeting_payloads c data) := by
  unfold run_targeting at h
  rcases h6 : apply_targeting_criteria api c data with ⟨t, r⟩
  rw [h6] at h
  have ht : (apply_targeting_criteria api c data).1 = t := by rw [h6]
  rcases r with e | u <;> simp at h <;> exact mem_apply_targeting (ht ▸ h)

lemma mem_run_creative {api : AdsAPI} {data : CampaignRequest} {c g : String}
    {op : RemoteOp} (h : op ∈ (run_creative api data c g).1) :
    op ∈ (create_responsive_display_ad api g data).1 ∨
    ∃ a, op ∈ (run_targeting api data c g a).1 := by
  unfold run_creative at h
  rcases h5 : create_responsive_display_ad api g data with ⟨t, r⟩
  rw [h5] at h
  have ht : (create_responsive_display_ad api g data).1 = t := by rw [h5]
  rcases r with e | a <;> simp at h
  · exact .inl (ht ▸ h)
  rcases h with h | h
  · exact .inl (ht ▸ h)
  · exact .inr ⟨a, h⟩

lemma mem_run_keywords {api : AdsAPI} {data : CampaignRequest} {c g : String}
    {op : RemoteOp} (h : op ∈ (run_keywords api data c g).1) :
    op ∈ (create_ad_group_keywords api g data).1 ∨
    op ∈ (run_creative api data c g).1 := by
  unfold run_keywords at h
  rcases h4 : create_ad_group_keywords api g data with ⟨t, r⟩
  rw [h4] at h
  have ht : (create_ad_group_keywords api g data).1 = t := by rw [h4]
  rcases r with e | u <;> simp at h
  · exact .inl (ht ▸ h)
  rcases h with h | h
  · exact .inl (ht ▸ h)
  · exact .inr h

lemma mem_run_ad_group {api : AdsAPI} {data : CampaignRequest} {c : String}
    {op : RemoteOp} (h : op ∈ (run_ad_group api data c).1) :
    op = .createAdGroup (ad_group_payload c) ∨
    ∃ g, api.adGroupResult (ad_group_payload c) = .ok g ∧
      op ∈ (run_keywords api data c g).1 := by
  unfold run_ad_group create_ad_group at h
  rcases h3 : api.adGroupResult (ad_group_payload c) with e | g <;> simp only [h3] at h <;>
    simp at h
  · exact .inl h
  rcases h with h | h
  · exact .inl h
  · exact .inr ⟨g, rfl, h⟩

lemma mem_run_campaign {api : AdsAPI} {data : CampaignRequest} {b : String}
    {op : RemoteOp} (h : op ∈ (run_campaign api data b).1) :
    op = .createCampaign (campaign_resource_payload b data) ∨
    ∃ c, api.campaignResult (campaign_resource_payload b data) = .ok c ∧
      op ∈ (run_ad_group api data c).1 := by
  unfold run_campaign create_campaign_resource at h
  rcases h2 : api.campaignResult (campaign_resource_payload b data) with e | c <;>
    simp only [h2] at h <;> simp at h
  · exact .inl h
  rcases h with h | h
  · exact .inl h
  · exact .inr ⟨c, rfl, h⟩

lemma mem_run_budget {api : AdsAPI} {data : CampaignRequest}
    {op : RemoteOp} (h : op ∈ (run_budget api data).1) :
    op = .createBudget (campaign_budget_payload data.budget) ∨
    ∃ b, api.budgetResult (campaign_budget_payload data.budget) = .ok b ∧
      op ∈ (run_campaign api data b).1 := by
  unfold run_budget create_campaign_budget at h
  rcases h1 : api.budgetResult (campaign_budget_payload data.budget) with e | b <;>
    simp only [h1] at h <;> simp at h
  · exact .inl h
  rcases h with h | h
  · exact .inl h
  · exact .inr ⟨b, rfl, h⟩

/-- Every operation in the trace of a run, with the chain of successful
remote results that led to it: each payload consumes the resource name
the previous call returned. -/
lemma mem_trace {api : AdsAPI} {data : CampaignRequest} {op : RemoteOp}
    (h : op ∈ (create_campaign api data).1) :
    op = .createBudget (campaign_budget_payload data.budget) ∨
    ∃ b, api.budgetResult (campaign_budget_payload data.budget) = .ok b ∧
      (op = .createCampaign (campaign_resource_payload b data) ∨
      ∃ c, api.campaignResult (campaign_resource_payload b data) = .ok c ∧
        (op = .createAdGroup (ad_group_payload c) ∨
        ∃ g, api.adGroupResult (ad_group_payload c) = .ok g ∧
          (op = .createKeywords (keyword_payloads g data) ∨
           op = .uploadImageAsset data.cover_photo ∨
           op = .uploadSquareImageAsset data.cover_photo ∨
           (∃ m s, op = .createAd (responsive_display_ad_payload g m s data)) ∨
           op = .createCriteria (targeting_payloads c data)))) := by
  unfold create_campaign at h
  rcases h0 : api.customerId with e | cid <;> rw [h0] at h <;> simp at h
  rcases mem_run_budget h with h | ⟨b, hb, h⟩
  · exact .inl h
  refine .inr ⟨b, hb, ?_⟩
  rcases mem_run_campaign h with h | ⟨c, hc, h⟩
  · exact .inl h
  refine .inr ⟨c, hc, ?_⟩
  rcases mem_run_ad_group h with h | ⟨g, hg, h⟩
  · exact .inl h
  refine .inr ⟨g, hg, ?_⟩
  rcases mem_run_keywords h with h | h
  · exact .inl (mem_create_keywords h)
  rcases mem_run_creative h with h | ⟨a, h⟩
  · rcases mem_create_creative h with h | h | ⟨m, s, h⟩
    · exact .inr (.inl h)
    · exact .inr (.inr (.inl h))
    · exact .inr (.inr (.inr (.inl ⟨m, s, h⟩)))
  · exact .inr (.inr (.inr (.inr (mem_run_targeting h))))

/-! Ordering of the attempted operations. -/

lemma lb_run_targeting {api : AdsAPI} {data : CampaignRequest} {c g a : String} :
    ∀ op ∈ (run_targeting api data c g a).1, 7 ≤ stepKind op := by
  intro op h
  rw [mem_run_targeting h]
  simp [stepKind]

lemma lb_create_creative {api : AdsAPI} {g : String} {data : CampaignRequest} :
    ∀ op ∈ (create_responsive_display_ad api g data).1, 4 ≤ stepKind op := by
  intro op h
  rcases mem_create_creative h with h | h | ⟨m, s, h⟩ <;> rw [h] <;> simp [stepKind]

lemma ub_create_creative {api : AdsAPI} {g : String} {data : CampaignRequest} :
    ∀ op ∈ (create_responsive_display_ad api g data).1, stepKind op ≤ 6 := by
  intro op h
  rcases mem_create_creative h with h | h | ⟨m, s, h⟩ <;> rw [h] <;> simp [stepKind]

lemma lb_run_creative {api : AdsAPI} {data : CampaignRequest} {c g : String} :
    ∀ op ∈ (run_creative api data c g).1, 4 ≤ stepKind op := by
  intro op h
  rcases mem_run_creative h with h | ⟨a, h⟩
  · exact lb_create_creative op h
  · exact le_trans (by norm_num) (lb_run_targeting op h)

lemma lb_run_keywords {api : AdsAPI} {data : CampaignRequest} {c g : String} :
    ∀ op ∈ (run_keywords api data c g).1, 3 ≤ stepKind op := by
  intro op h
  rcases mem_run_keywords h with h | h
  · rw [mem_create_keywords h]; simp [stepKind]
  · exact le_trans (by norm_num) (lb_run_creative op h)

lemma lb_run_ad_group {api : AdsAPI} {data : CampaignRequest} {c : String} :
    ∀ op ∈ (run_ad_group api data c).1, 2 ≤ stepKind op := by
  intro op h
  rcases mem_run_ad_group h with h | ⟨g, _, h⟩
  · rw [h]; simp [stepKind]
  · exact le_trans (by norm_num) (lb_run_keywords op h)

lemma lb_run_campaign {api : AdsAPI} {data : CampaignRequest} {b : String} :
    ∀ op ∈ (run_campaign api data b).1, 1 ≤ stepKind op := by
  intro op h
  rcases mem_run_campaign h with h | ⟨c, _, h⟩
  · rw [h]; simp [stepKind]
  · exact le_trans (by norm_num) (lb_run_ad_group op h)

lemma run_targeting_fst {api : AdsAPI} {data : CampaignRequest} {c g a : String} :
    (run_targeting api data c g a).1 = (apply_targeting_criteria api c data).1 := by
  unfold run_targeting
  rcases h : apply_targeting_criteria api c data with ⟨t, r⟩
  rcases r <;> simp

lemma apply_targeting_dropLast {api : AdsAPI} {c : String} {data : CampaignRequest} :
    (apply_targeting_criteria api c data).1.dropLast = [] := by
  unfold apply_targeting_criteria
  by_cases hemp : (targeting_payloads c data).isEmpty <;> simp [hemp]

lemma pw_run_targeting {api : AdsAPI} {data : CampaignRequest} {c g a : String} :
    List.Pairwise (fun x y => stepKind x < stepKind y) (run_targeting api data c g a).1 := by
  rw [run_targeting_fst]
  unfold apply_targeting_criteria
  by_cases hemp : (targeting_payloads c data).isEmpty <;> simp [hemp]

lemma pw_create_creative {api : AdsAPI} {g : String} {data : CampaignRequest} :
    List.Pairwise (fun x y => stepKind x < stepKind y)
      (create_responsive_display_ad api g data).1 := by
  unfold create_responsive_display_ad
  by_cases hcov : data.cover_photo = "" <;> simp [hcov]
  by_cases hhttp : pyStartsWith data.cover_photo "http" <;> simp [hhttp]
  rcases hup1 : api.uploadMarketing data.cover_photo with e | m <;> simp [stepKind]
  rcases hup2 : api.uploadSquare data.cover_photo with e | s <;> simp [stepKind]

lemma pw_run_creative {api : AdsAPI} {data : CampaignRequest} {c g : String} :
    List.Pairwise (fun x y => stepKind x < stepKind y) (run_creative api data c g).1 := by
  unfold run_creative
  rcases h5 : create_responsive_display_ad api g data with ⟨t, r⟩
  have hpw : List.Pairwise (fun x y => stepKind x < stepKind y) t := by
    have := @pw_create_creative api g data
    rwa [h5] at this
  have hub : ∀ op ∈ t, stepKind op ≤ 6 := by
    have := @ub_create_creative api g data
    rwa [h5] at this
  rcases r with e | a <;> simp
  · exact hpw
  · refine List.pairwise_append.mpr ⟨hpw, pw_run_targeting, ?_⟩
    intro x hx y hy
    exact lt_of_le_of_lt (hub x hx) (lt_of_lt_of_le (by norm_num) (lb_run_targeting y hy))

lemma pw_run_keywords {api : AdsAPI} {data : CampaignRequest} {c g : String} :
    List.Pairwise (fun x y => stepKind x < stepKind y) (run_keywords api data c g).1 := by
  unfold run_keywords
  rcases h4 : create_ad_group_keywords api g data with ⟨t, r⟩
  have hshape : t = [] ∨ t = [RemoteOp.createKeywords (keyword_payloads g data)] := by
    have : (create_ad_group_keywords api g data).1 = t := by rw [h4]
    rw [← this]
    unfold create_ad_group_keywords
    by_cases hemp : (keyword_payloads g data).isEmpty <;> simp [hemp]
  rcases r with e | u <;> simp
  · rcases hshape with rfl | rfl <;> simp
  · refine List.pairwise_append.mpr ⟨?_, pw_run_creative, ?_⟩
    · rcases hshape with rfl | rfl <;> simp
    · intro x hx y hy
      rcases hshape with rfl | rfl
      · simp at hx
      · simp at hx
        rw [hx]
        exact lt_of_lt_of_le (by simp [stepKind]) (lb_run_creative y hy)

lemma pw_run_ad_group {api : AdsAPI} {data : CampaignRequest} {c : String} :
    List.Pairwise (fun x y => stepKind x < stepKind y) (run_ad_group api data c).1 := by
  unfold run_ad_group create_ad_group
  rcases h3 : api.adGroupResult (ad_group_payload c) with e | g <;> simp only [h3] <;> simp
  refine ⟨?_, pw_run_keywords⟩
  intro y hy
  exact lt_of_lt_of_le (by simp [stepKind]) (lb_run_keywords y hy)

lemma pw_run_campaign {api : AdsAPI} {data : CampaignRequest} {b : String} :
    List.Pairwise (fun x y => stepKind x < stepKind y) (run_campaign api data b).1 := by
  unfold run_campaign create_campaign_resource
  rcases h2 : api.campaignResult (campaign_resource_payload b data) with e | c <;>
    simp only [h2] <;> simp
  refine ⟨?_, pw_run_ad_group⟩
  intro y hy
  exact lt_of_lt_of_le (by simp [stepKind]) (lb_run_ad_group y hy)

lemma pw_run_budget {api : AdsAPI} {data : CampaignRequest} :
    List.Pairwise (fun x y => stepKind x < stepKind y) (run_budget api data).1 := by
  unfold run_budget create_campaign_budget
  rcases h1 : api.budgetResult (campaign_budget_payload data.budget) with e | b <;>
    simp only [h1] <;> simp
  refine ⟨?_, pw_run_campaign⟩
  intro y hy
  exact lt_of_lt_of_le (by simp [stepKind]) (lb_run_campaign y hy)

lemma pw_trace {api : AdsAPI} {data : CampaignRequest} :
    List.Pairwise (fun x y => stepKind x < stepKind y) (create_campaign api data).1 := by
  unfold create_campaign
  rcases h0 : api.customerId with e | cid <;> simp
  exact pw_run_budget

/-! Every attempted operation except possibly the last one succeeded:  a
failing call is always the final operation of the trace, so a failure at
any step prevents every later step from running. -/

lemma forall_dropLast_append {P : RemoteOp → Prop} {t t' : List RemoteOp}
    (h1 : ∀ x ∈ t, P x) (h2 : ∀ x ∈ t'.dropLast, P x) :
    ∀ x ∈ (t ++ t').dropLast, P x := by
  rcases eq_or_ne t' [] with rfl | hne
  · intro x hx
    simp only [List.append_nil] at hx
    exact h1 x (List.dropLast_subset t hx)
  · rw [List.dropLast_append_of_ne_nil t hne]
    intro x hx
    rcases List.mem_append.mp hx with h | h
    · exact h1 x h
    · exact h2 x h

lemma budget_ok_inv {api : AdsAPI} {b : Int} {t : List RemoteOp} {brn : String}
    (h : create_campaign_budget api b = (t, .ok brn)) :
    api.budgetResult (campaign_budget_payload b) = .ok brn ∧
      t = [RemoteOp.createBudget (campaign_budget_payload b)] := by
  simp only [create_campaign_budget, Prod.mk.injEq] at h
  exact ⟨h.2, h.1.symm⟩

lemma campaign_ok_inv {api : AdsAPI} {b : String} {data : CampaignRequest}
    {t : List RemoteOp} {crn : String}
    (h : create_campaign_resource api b data = (t, .ok crn)) :
    api.campaignResult (campaign_resource_payload b data) = .ok crn ∧
      t = [RemoteOp.createCampaign (campaign_resource_payload b data)] := by
  simp only [create_campaign_resource, Prod.mk.injEq] at h
  exact ⟨h.2, h.1.symm⟩

lemma ad_group_ok_inv {api : AdsAPI} {c : String} {t : List RemoteOp} {grn : String}
    (h : create_ad_group api c = (t, .ok grn)) :
    api.adGroupResult (ad_group_payload c) = .ok grn ∧
      t = [RemoteOp.createAdGroup (ad_group_payload c)] := by
  simp only [create_ad_group, Prod.mk.injEq] at h
  exact ⟨h.2, h.1.symm⟩

lemma keywords_ok_all {api : AdsAPI} {g : String} {data : CampaignRequest}
    {t : List RemoteOp} (h : create_ad_group_keywords api g data = (t, .ok ())) :
    ∀ op ∈ t, attemptOk api op := by
  simp only [create_ad_group_keywords] at h
  by_cases hemp : (keyword_payloads g data).isEmpty <;> simp only [hemp] at h <;> simp at h
  · rcases h with ⟨rfl, -⟩
    simp
  · rcases hk : api.keywordsResult (keyword_payloads g data) with e | l <;> rw [hk] at h <;>
      simp [Except.map] at h
    rcases h with rfl
    intro op hop
    simp at hop
    rw [hop]
    exact ⟨l, hk⟩

lemma keywords_dropLast {api : AdsAPI} {g : String} {data : CampaignRequest} :
    (create_ad_group_keywords api g data).1.dropLast = [] := by
  simp only [create_ad_group_keywords]
  by_cases hemp : (keyword_payloads g data).isEmpty <;> simp [hemp]

lemma targeting_ok_all {api : AdsAPI} {c : String} {data : CampaignRequest}
    {t : List RemoteOp} (h : apply_targeting_criteria api c data = (t, .ok ())) :
    ∀ op ∈ t, attemptOk api op := by
  simp only [apply_targeting_criteria] at h
  by_cases hemp : (targeting_payloads c data).isEmpty <;> simp only [hemp] at h <;> simp at h
  · rcases h with ⟨rfl, -⟩
    simp
  · rcases hk : api.criteriaResult (targeting_payloads c data) with e | l <;> rw [hk] at h <;>
      simp [Except.map] at h
    rcases h with rfl
    intro op hop
    simp at hop
    rw [hop]
    exact ⟨l, hk⟩

lemma creative_ok_all {api : AdsAPI} {g : String} {data : CampaignRequest}
    {t : List RemoteOp} {a : String}
    (h : create_responsive_display_ad api g data = (t, .ok a)) :
    ∀ op ∈ t, attemptOk api op := by
  simp only [create_responsive_display_ad] at h
  by_cases hcov : data.cover_photo = "" <;> simp only [hcov] at h <;> simp at h
  by_cases hhttp : pyStartsWith data.cover_photo "http" <;> simp only [hhttp] at h <;>
    simp at h
  · rcases hup1 : api.uploadMarketing data.cover_photo with e | m <;> rw [hup1] at h <;>
      simp at h
    rcases hup2 : api.uploadSquare data.cover_photo with e | s <;> rw [hup2] at h <;>
      simp at h
    rcases h with ⟨rfl, had⟩
    intro op hop
    simp at hop
    rcases hop with rfl | rfl | rfl
    · exact ⟨m, hup1⟩
    · exact ⟨s, hup2⟩
    · exact ⟨a, had⟩
  · rcases h with ⟨rfl, had⟩
    intro op hop
    simp at hop
    rw [hop]
    exact ⟨a, had⟩

lemma creative_ok_inv {api : AdsAPI} {g : String} {data : CampaignRequest}
    {t : List RemoteOp} {a : String}
    (h : create_responsive_display_ad api g data = (t, .ok a)) :
    ∃ m s, api.adResult (responsive_display_ad_payload g m s data) = .ok a ∧
      RemoteOp.createAd (responsive_display_ad_payload g m s data) ∈ t := by
  simp only [create_responsive_display_ad] at h
  by_cases hcov : data.cover_photo = "" <;> simp only [hcov] at h <;> simp at h
  by_cases hhttp : pyStartsWith data.cover_photo "http" <;> simp only [hhttp] at h <;>
    simp at h
  · rcases hup1 : api.uploadMarketing data.cover_photo with e | m <;> rw [hup1] at h <;>
      simp at h
    rcases hup2 : api.uploadSquare data.cover_photo with e | s <;> rw [hup2] at h <;>
      simp at h
    rcases h with ⟨rfl, had⟩
    exact ⟨m, s, had, by simp⟩
  · rcases h with ⟨rfl, had⟩
    exact ⟨data.cover_photo, data.cover_photo, had, by simp⟩

lemma creative_att_dropLast {api : AdsAPI} {g : String} {data : CampaignRequest} :
    ∀ op ∈ (create_responsive_display_ad api g data).1.dropLast, attemptOk api op := by
  unfold create_responsive_display_ad
  by_cases hcov : data.cover_photo = "" <;> simp [hcov]
  by_cases hhttp : pyStartsWith data.cover_photo "http" <;> simp [hhttp]
  rcases hup1 : api.uploadMarketing data.cover_photo with e | m <;> simp
  rcases hup2 : api.uploadSquare data.cover_photo with e | s <;> simp
  · exact ⟨m, hup1⟩
  · exact ⟨⟨m, hup1⟩, ⟨s, hup2⟩⟩

lemma att_run_targeting {api : AdsAPI} {data : CampaignRequest} {c g a : String} :
    ∀ op ∈ (run_targeting api data c g a).1.dropLast, attemptOk api op := by
  rw [run_targeting_fst, apply_targeting_dropLast]
  simp

lemma att_run_creative {api : AdsAPI} {data : CampaignRequest} {c g : String} :
    ∀ op ∈ (run_creative api data c g).1.dropLast, attemptOk api op := by
  unfold run_creative
  rcases h5 : create_responsive_display_ad api g data with ⟨t, r⟩
  rcases r with e | a <;> simp
  · have := @creative_att_dropLast api g data
    rw [h5] at this
    simpa using this
  · exact forall_dropLast_append (creative_ok_all h5) att_run_targeting

lemma att_run_keywords {api : AdsAPI} {data : CampaignRequest} {c g : String} :
    ∀ op ∈ (run_keywords api data c g).1.dropLast, attemptOk api op := by
  unfold run_keywords
  rcases h4 : create_ad_group_keywords api g data with ⟨t, r⟩
  rcases r with e | ⟨⟩ <;> simp
  · have := @keywords_dropLast api g data
    rw [h4] at this
    simp at this
    simp [this]
  · exact forall_dropLast_append (keywords_ok_all h4) att_run_creative

lemma att_run_ad_group {api : AdsAPI} {data : CampaignRequest} {c : String} :
    ∀ op ∈ (run_ad_group api data c).1.dropLast, attemptOk api op := by
  unfold run_ad_group create_ad_group
  rcases h3 : api.adGroupResult (ad_group_payload c) with e | g <;> simp only [h3] <;> simp
  have h1 : ∀ x ∈ [RemoteOp.createAdGroup (ad_group_payload c)], attemptOk api x := by
    intro x hx
    simp at hx
    rw [hx]
    exact ⟨g, h3⟩
  have := forall_dropLast_append h1 (@att_run_keywords api data c g)
  simpa using this

lemma att_run_campaign {api : AdsAPI} {data : CampaignRequest} {b : String} :
    ∀ op ∈ (run_campaign api data b).1.dropLast, attemptOk api op := by
  unfold run_campaign create_campaign_resource
  rcases h2 : api.campaignResult (campaign_resource_payload b data) with e | c <;>
    simp only [h2] <;> simp
  have h1 : ∀ x ∈ [RemoteOp.createCampaign (campaign_resource_payload b data)],
      attemptOk api x := by
    intro x hx
    simp at hx
    rw [hx]
    exact ⟨c, h2⟩
  have := forall_dropLast_append h1 (@att_run_ad_group api data c)
  simpa using this

lemma att_run_budget {api : AdsAPI} {data : CampaignRequest} :
    ∀ op ∈ (run_budget api data).1.dropLast, attemptOk api op := by
  unfold run_budget create_campaign_budget
  rcases h1 : api.budgetResult (campaign_budget_payload data.budget) with e | b <;>
    simp only [h1] <;> simp
  have hb : ∀ x ∈ [RemoteOp.createBudget (campaign_budget_payload data.budget)],
      attemptOk api x := by
    intro x hx
    simp at hx
    rw [hx]
    exact ⟨b, h1⟩
  have := forall_dropLast_append hb (@att_run_campaign api data b)
  simpa using this

lemma att_trace {api : AdsAPI} {data : CampaignRequest} :
    ∀ op ∈ (create_campaign api data).1.dropLast, attemptOk api op := by
  unfold create_campaign
  rcases h0 : api.customerId with e | cid <;> simp
  exact att_run_budget

/-! A success response can only arise after the whole chain has run, and
it carries exactly the resource names the chain produced. -/

lemma errResult_ne_success (e : ApiError) (c g a : String) :
    errResult e ≠ RunResult.success c g a := by
  cases e <;> simp [errResult]

lemma success_run_targeting {api : AdsAPI} {data : CampaignRequest}
    {c g a c' g' a' : String}
    (h : (run_targeting api data c g a).2 = .success c' g' a') :
    c' = c ∧ g' = g ∧ a' = a := by
  unfold run_targeting at h
  rcases h6 : apply_targeting_criteria api c data with ⟨t, r⟩
  rw [h6] at h
  rcases r with e | u <;> simp at h
  · exact absurd h (errResult_ne_success e c' g' a')
  · exact ⟨h.1.symm, h.2.1.symm, h.2.2.symm⟩

lemma success_run_creative {api : AdsAPI} {data : CampaignRequest}
    {c g c' g' a' : String}
    (h : (run_creative api data c g).2 = .success c' g' a') :
    c' = c ∧ g' = g ∧
      ∃ m s, api.adResult (responsive_display_ad_payload g m s data) = .ok a' ∧
        RemoteOp.createAd (responsive_display_ad_payload g m s data) ∈
          (run_creative api data c g).1 := by
  unfold run_creative at h ⊢
  rcases h5 : create_responsive_display_ad api g data with ⟨t, r⟩
  rw [h5] at h
  rcases r with e | a <;> simp at h ⊢
  · exact absurd h (errResult_ne_success e c' g' a')
  · obtain ⟨hc, hg, ha⟩ := success_run_targeting h
    obtain ⟨m, s, had, hmem⟩ := creative_ok_inv h5
    subst ha
    exact ⟨hc, hg, m, s, had, Or.inl hmem⟩

lemma success_run_keywords {api : AdsAPI} {data : CampaignRequest}
    {c g c' g' a' : String}
    (h : (run_keywords api data c g).2 = .success c' g' a') :
    c' = c ∧ g' = g ∧
      ∃ m s, api.adResult (responsive_display_ad_payload g m s data) = .ok a' ∧
        RemoteOp.createAd (responsive_display_ad_payload g m s data) ∈
          (run_keywords api data c g).1 := by
  unfold run_keywords at h ⊢
  rcases h4 : create_ad_group_keywords api g data with ⟨t, r⟩
  rw [h4] at h
  rcases r with e | ⟨⟩ <;> simp at h ⊢
  · exact absurd h (errResult_ne_success e c' g' a')
  · obtain ⟨hc, hg, m, s, had, hmem⟩ := success_run_creative h
    exact ⟨hc, hg, m, s, had, Or.inr hmem⟩

lemma success_run_ad_group {api : AdsAPI} {data : CampaignRequest}
    {c c' g' a' : String}
    (h : (run_ad_group api data c).2 = .success c' g' a') :
    c' = c ∧ api.adGroupResult (ad_group_payload c) = .ok g' ∧
      ∃ m s, api.adResult (responsive_display_ad_payload g' m s data) = .ok a' ∧
        RemoteOp.createAd (responsive_display_ad_payload g' m s data) ∈
          (run_ad_group api data c).1 := by
  unfold run_ad_group create_ad_group at h ⊢
  rcases h3 : api.adGroupResult (ad_group_payload c) with e | g <;> simp only [h3] at h ⊢ <;>
    simp at h ⊢
  · exact absurd h (errResult_ne_success e c' g' a')
  · obtain ⟨hc, hg, m, s, had, hmem⟩ := success_run_keywords h
    subst hg
    exact ⟨hc, rfl, m, s, had, hmem⟩

lemma success_run_campaign {api : AdsAPI} {data : CampaignRequest}
    {b c' g' a' : String}
    (h : (run_campaign api data b).2 = .success c' g' a') :
    api.campaignResult (campaign_resource_payload b data) = .ok c' ∧
      api.adGroupResult (ad_group_payload c') = .ok g' ∧
      ∃ m s, api.adResult (responsive_display_ad_payload g' m s data) = .ok a' ∧
        RemoteOp.createAd (responsive_display_ad_payload g' m s data) ∈
          (run_campaign api data b).1 := by
  unfold run_campaign create_campaign_resource at h ⊢
  rcases h2 : api.campaignResult (campaign_resource_payload b data) with e | c <;>
    simp only [h2] at h ⊢ <;> simp at h ⊢
  · exact absurd h (errResult_ne_success e c' g' a')
  · obtain ⟨hc, hg, m, s, had, hmem⟩ := success_run_ad_group h
    subst hc
    exact ⟨rfl, hg, m, s, had, hmem⟩

lemma success_run_budget {api : AdsAPI} {data : CampaignRequest}
    {c' g' a' : String}
    (h : (run_budget api data).2 = .success c' g' a') :
    ∃ b, api.budgetResult (campaign_budget_payload data.budget) = .ok b ∧
      api.campaignResult (campaign_resource_payload b data) = .ok c' ∧
      api.adGroupResult (ad_group_payload c') = .ok g' ∧
      ∃ m s, api.adResult (responsive_display_ad_payload g' m s data) = .ok a' ∧
        RemoteOp.createAd (responsive_display_ad_payload g' m s data) ∈
          (run_budget api data).1 := by
  unfold run_budget create_campaign_budget at h ⊢
  rcases h1 : api.budgetResult (campaign_budget_payload data.budget) with e | b <;>
    simp only [h1] at h ⊢ <;> simp at h ⊢
  · exact absurd h (errResult_ne_success e c' g' a')
  · obtain ⟨hc, hg, m, s, had, hmem⟩ := success_run_campaign h
    exact ⟨hc, hg, m, s, had, hmem⟩

lemma success_trace {api : AdsAPI} {data : CampaignRequest} {c' g' a' : String}
    (h : (create_campaign api data).2 = .success c' g' a') :
    ∃ b, api.budgetResult (campaign_budget_payload data.budget) = .ok b ∧
      api.campaignResult (campaign_resource_payload b data) = .ok c' ∧
      api.adGroupResult (ad_group_payload c') = .ok g' ∧
      ∃ m s, api.adResult (responsive_display_ad_payload g' m s data) = .ok a' ∧
        RemoteOp.createAd (responsive_display_ad_payload g' m s data) ∈
          (create_campaign api data).1 := by
  unfold create_campaign at h ⊢
  rcases h0 : api.customerId with e | cid <;> simp only [h0] at h ⊢
  · exact absurd (by simpa using h) (errResult_ne_success e c' g' a')
  · exact success_run_budget h

/-- Pixel dimensions of an image. -/
structure Dims where
  w : Nat
  h : Nat
deriving DecidableEq, Repr

/-- Dimension behaviour of PIL Image.resize: the returned image has
exactly the requested size, whatever the source size. -/
def resize_dims (_source : Dims) (target : Dims) : Dims := target

/-- Dimensions of the crop box computed by process_cover_photo
(src/main.py lines 72-79): when the aspect exceeds 1.91 the width is cut
to int of height times 1.91, when below it the height is cut to int of
width over 1.91.  The source compares float ratios; the rational 191/100
used here can differ from the float by at most one pixel in the crop box,
which does not affect the final resize. -/
def crop_cover_dims (d : Dims) : Dims :=
  if (d.w : ℚ) / (d.h : ℚ) > 191 / 100 then
    { w := ((d.h : ℚ) * (191 / 100) : ℚ).floor.toNat, h := d.h }
  else if (d.w : ℚ) / (d.h : ℚ) < 191 / 100 then
    { w := d.w, h := ((d.w : ℚ) / (191 / 100) : ℚ).floor.toNat }
  else d

/-- Dimension behaviour of process_cover_photo (src/main.py lines 66-85):
crop towards the 1.91:1 aspect, then resize to 1200 by 628. -/
def process_cover_photo (d : Dims) : Dims :=
  resize_dims (crop_cover_dims d) { w := 1200, h := 628 }

/-- Dimensions of the centred square crop of process_square_image
(src/main.py lines 90-96). -/
def crop_square_dims (d : Dims) : Dims :=
  { w := min d.w d.h, h := min d.w d.h }

/-- Dimension behaviour of process_square_image (src/main.py lines
87-102): crop to the centred square, then resize to 1200 by 1200. -/
def process_square_image (d : Dims) : Dims :=
  resize_dims (crop_square_dims d) { w := 1200, h := 1200 }

/-- A calendar date, used only by the spec-side budget formulas below. -/
structure CivilDate where
  year : Int
  month : Int
  day : Int
deriving DecidableEq, Repr

/-- Day number of a civil date (days since 1970-01-01, standard civil
calendar algorithm).  Used only on concrete dates of the common era, where
every intermediate division has nonnegative operands. -/
def daysFromCivil (date : CivilDate) : Int :=
  let y := if date.month ≤ 2 then date.year - 1 else date.year
  let era := (if 0 ≤ y then y else y - 399) / 400
  let yoe := y - era * 400
  let mp := (date.month + 9) % 12
  let doy := (153 * mp + 2) / 5 + date.day - 1
  let doe := yoe * 365 + yoe / 4 - yoe / 100 + doy
  era * 146097 + doe - 719468

/-- Follows the words of the spec, for comparison with the code: the
inclusive day count of a date range. -/
def spec_day_count (start_date end_date : CivilDate) : Int :=
  daysFromCivil end_date - daysFromCivil start_date + 1

/-- Follows the words of the spec, for comparison with the code: rounding
to the nearest allowed increment of 10000 micros. -/
def spec_round_to_increment (x : ℚ) : Int :=
  10000 * ⌊(x / 10000 + 1 / 2 : ℚ)⌋

/-- Follows the words of the spec, for comparison with the code: the
daily budget in micros that the spec says is submitted to the platform,
total over day count, times 1000000, rounded to the nearest 10000. -/
def spec_daily_budget_micros (total : ℚ) (day_count : Int) : Int :=
  spec_round_to_increment (total / (day_count : ℚ) * 1000000)

/-- A concrete well-formed request used by witnesses and counterexamples:
budget supplied as the string 100 (converted to 100000000 by
convert_budget), a ten-day range, gender MALE, an age band equal to the
18-24 bracket. -/
def exRequest : CampaignRequest :=
  { refresh_token := "tok"
    campaign_name := "Camp"
    campaign_description := "Great products"
    objective := "Sell more"
    cover_photo := "http://img.example/cover.png"
    final_url := "http://example.com"
    keyword1 := "shoes"
    keyword2 := "boots"
    keyword3 := "sandals"
    budget := 100000000
    start_date := "2025-01-01"
    end_date := "2025-01-10"
    price_model := "CPC"
    campaign_type := "DISPLAY"
    audience_gender := "MALE"
    audience_min_age := 18
    audience_max_age := 24
    devices := ["SMARTPHONE"] }

/-- An oracle on which every remote call succeeds with a fixed resource
name. -/
def okApi : AdsAPI :=
  { customerId := .ok "1234567890"
    budgetResult := fun _ => .ok "customers/123/campaignBudgets/1"
    campaignResult := fun _ => .ok "customers/123/campaigns/1"
    adGroupResult := fun _ => .ok "customers/123/adGroups/1"
    keywordsResult := fun ops => .ok (ops.map fun _ => "customers/123/adGroupCriteria/1")
    uploadMarketing := fun _ => .ok "customers/123/assets/1"
    uploadSquare := fun _ => .ok "customers/123/assets/2"
    adResult := fun _ => .ok "customers/123/adGroupAds/1"
    criteriaResult := fun ops => .ok (ops.map fun _ => "customers/123/campaignCriteria/1") }

/-- An oracle on which the keyword mutation is rejected by the platform
and every other call succeeds: the run fails at the
AdGroupCreated to KeywordsCreated transition. -/
def kwFailApi : AdsAPI :=
  { okApi with keywordsResult := fun _ => .error (.googleAds "rejected") }

/-- A request whose budget string 10 converts to 10,000,000 micros over a
thirty-day range: a daily amount of one third of a currency unit. -/
def exLowBudgetRequest : CampaignRequest :=
  { exRequest with budget := 10000000, end_date := "2025-01-30" }

/-- A request whose first keyword is a 45-character headline text. -/
def exLongHeadlineRequest : CampaignRequest :=
  { exRequest with keyword1 := "Premium Handcrafted Artisan Coffee Beans Best" }

/-- A request whose audience gender arrives lower-case. -/
def exMaleLowerRequest : CampaignRequest :=
  { exRequest with audience_gender := "male" }

lemma keyword_payloads_ad_group {g : String} {data : CampaignRequest} :
    ∀ k ∈ keyword_payloads g data, k.ad_group = g := by
  intro k hk
  simp [keyword_payloads] at hk
  rcases hk with ⟨kw, -, rfl⟩
  rfl

lemma targeting_payloads_campaignOf {c : String} {data : CampaignRequest} :
    ∀ cr ∈ targeting_payloads c data, cr.campaignOf = c := by
  intro cr hcr
  unfold targeting_payloads at hcr
  by_cases hcond : data.audience_gender ≠ "" ∧
      (pyUpper data.audience_gender = "MALE" ∨ pyUpper data.audience_gender = "FEMALE") <;>
    simp [hcond] at hcr
  rcases hcr with ⟨x, -, rfl⟩
  rfl

/-- C1 (amended): on a failure nothing is rolled back: no run ever
attempts a delete, pause or disable mutation, whatever the oracle and the
request; every trace operation is a create or an asset upload. -/
theorem no_rollback_in_any_run (api : AdsAPI) (data : CampaignRequest) :
    ((create_campaign api data).1.all fun op => !op.isRollback) = true := by
  rw [List.all_eq_true]
  intro op hop
  rcases mem_trace hop with h | ⟨b, -, h⟩
  · rw [h]; rfl
  rcases h with h | ⟨c, -, h⟩
  · rw [h]; rfl
  rcases h with h | ⟨g, -, h⟩
  · rw [h]; rfl
  rcases h with h | h | h | ⟨m, s, h⟩ | h <;> rw [h] <;> rfl

/-- C1 is false as stated: the run against kwFailApi fails at the
AdGroupCreated to KeywordsCreated transition, yet the trace holds the
budget, campaign and ad-group creations, the campaign was created with
status ENABLED, and no delete or disable operation is attempted: the
enabled campaign remains on the platform. -/
theorem failed_run_rolls_nothing_back :
    (create_campaign kwFailApi exRequest).2 =
      RunResult.httpError 400 "GoogleAdsException: rejected" ∧
    RemoteOp.createCampaign
        (campaign_resource_payload "customers/123/campaignBudgets/1" exRequest) ∈
      (create_campaign kwFailApi exRequest).1 ∧
    (campaign_resource_payload "customers/123/campaignBudgets/1" exRequest).status =
      "ENABLED" ∧
    ((create_campaign kwFailApi exRequest).1.filter fun op => op.isRollback) = [] := by
  decide

/-- C2 (amended): the amount submitted to the budget-create operation is
the budget value of the request taken verbatim: no division by the day
count of the date range and no rounding to an increment happens anywhere. -/
theorem budget_submitted_verbatim (api : AdsAPI) (data : CampaignRequest)
    (bop : CampaignBudgetOp)
    (h : RemoteOp.createBudget bop ∈ (create_campaign api data).1) :
    bop.amount_micros = data.budget := by
  rcases mem_trace h with h | ⟨b, -, h⟩
  · simp at h
    rw [h]
    rfl
  rcases h with h | ⟨c, -, h⟩
  · simp at h
  rcases h with h | ⟨g, -, h⟩
  · simp at h
  rcases h with h | h | h | ⟨m, s, h⟩ | h <;> simp at h

theorem budget_submitted_verbatim_witness :
    (campaign_budget_payload 100000000).amount_micros = exRequest.budget :=
  budget_submitted_verbatim okApi exRequest (campaign_budget_payload 100000000) (by decide)

/-- C2 is false as stated: with the budget string 100 and the inclusive
ten-day range 2025-01-01 to 2025-01-10, the formula of the spec gives
10,000,000 micros, but the code submits the converted budget 100,000,000
micros untouched. -/
theorem budget_not_divided_by_days_cex :
    convert_budget (.str "100") = some 100000000 ∧
    spec_day_count ⟨2025, 1, 1⟩ ⟨2025, 1, 10⟩ = 10 ∧
    spec_daily_budget_micros 100 10 = 10000000 ∧
    (create_campaign okApi exRequest).1.head? =
      some (.createBudget (campaign_budget_payload 100000000)) ∧
    (100000000 : Int) ≠ 10000000 := by
  refine ⟨by decide, by decide, ?_, by decide, by decide⟩
  norm_num [spec_daily_budget_micros, spec_round_to_increment]

/-- C3 (amended): no minimum-daily-budget check exists: whenever the
customer id is obtained, the budget-create operation is the first remote
mutation attempted, with the request budget value, whatever its size. -/
theorem budget_created_regardless_of_minimum (api : AdsAPI) (data : CampaignRequest)
    (cid : String) (h : api.customerId = .ok cid) :
    (create_campaign api data).1.head? =
      some (.createBudget (campaign_budget_payload data.budget)) := by
  unfold create_campaign
  simp only [h]
  unfold run_budget create_campaign_budget
  rcases h1 : api.budgetResult (campaign_budget_payload data.budget) with e | b <;>
    simp only [h1] <;> simp

theorem budget_created_regardless_of_minimum_witness :
    (create_campaign okApi exLowBudgetRequest).1.head? =
      some (.createBudget (campaign_budget_payload 10000000)) :=
  budget_created_regardless_of_minimum okApi exLowBudgetRequest "1234567890" rfl

/-- C3 is false as stated: budget string 10 over the thirty-day range
2025-01-01 to 2025-01-30 is one third of a currency unit per day, far
below the 5.76 floor of the spec, yet the budget-create operation is
attempted and the whole run completes successfully; no BudgetTooLow
failure exists in the code. -/
theorem no_budget_too_low_check_cex :
    convert_budget (.str "10") = some 10000000 ∧
    spec_day_count ⟨2025, 1, 1⟩ ⟨2025, 1, 30⟩ = 30 ∧
    (10 : ℚ) / 30 < 576 / 100 ∧
    (create_campaign okApi exLowBudgetRequest).1.head? =
      some (.createBudget (campaign_budget_payload 10000000)) ∧
    (create_campaign okApi exLowBudgetRequest).2 =
      RunResult.success "customers/123/campaigns/1" "customers/123/adGroups/1"
        "customers/123/adGroupAds/1" := by
  refine ⟨by decide, by decide, by norm_num, by decide, by decide⟩

/-- C4 (amended): every creative text field is sent to the platform
verbatim, whatever its length: the headlines are the keywords as given
(the first falling back to the stripped campaign name only when keyword1
is empty), the descriptions are the description and objective as given,
and the business name and long headline come from the stripped campaign
name and objective; no truncation to 30, 90, 25 or 90 characters happens. -/
theorem creative_texts_sent_verbatim (g m s : String) (data : CampaignRequest)
    (h : data.keyword1 ≠ "") :
    (responsive_display_ad_payload g m s data).headlines =
      [data.keyword1, data.keyword2, data.keyword3] ∧
    (responsive_display_ad_payload g m s data).descriptions =
      [data.campaign_description, data.objective] ∧
    (responsive_display_ad_payload g m s data).business_name =
      pyStrip data.campaign_name ∧
    (responsive_display_ad_payload g m s data).long_headline =
      pyStrip data.campaign_name ++ " - " ++ pyStrip data.objective := by
  unfold responsive_display_ad_payload
  simp [h]

theorem creative_texts_sent_verbatim_witness :
    (responsive_display_ad_payload "adGroups/1" "assets/1" "assets/2" exRequest).headlines =
      ["shoes", "boots", "sandals"] :=
  (creative_texts_sent_verbatim "adGroups/1" "assets/1" "assets/2" exRequest (by decide)).1

/-- C4 is false as stated: a 45-character headline is sent whole in the
creative payload; it is not cut to its first 30 characters. -/
theorem headline_not_truncated_cex :
    ("Premium Handcrafted Artisan Coffee Beans Best" : String).length = 45 ∧
    (responsive_display_ad_payload "adGroups/1" "assets/1" "assets/2"
        exLongHeadlineRequest).headlines.head? =
      some "Premium Handcrafted Artisan Coffee Beans Best" ∧
    (responsive_display_ad_payload "adGroups/1" "assets/1" "assets/2"
        exLongHeadlineRequest).headlines.head? ≠
      some ⟨("Premium Handcrafted Artisan Coffee Beans Best" : String).data.take 30⟩ := by
  decide

/-- C5: requesting a MALE or FEMALE audience (case-insensitively) creates
exactly the two negative ENABLED criteria for the two other genders and
no positive criterion; any other gender value creates no criterion. -/
theorem gender_targeting_by_exclusion (crn : String) (data : CampaignRequest) :
    (pyUpper data.audience_gender = "MALE" →
      targeting_payloads crn data =
        [.gender crn "FEMALE" true "ENABLED", .gender crn "UNDETERMINED" true "ENABLED"]) ∧
    (pyUpper data.audience_gender = "FEMALE" →
      targeting_payloads crn data =
        [.gender crn "MALE" true "ENABLED", .gender crn "UNDETERMINED" true "ENABLED"]) ∧
    (pyUpper data.audience_gender ≠ "MALE" ∧ pyUpper data.audience_gender ≠ "FEMALE" →
      targeting_payloads crn data = []) ∧
    (∀ op ∈ targeting_payloads crn data, op.isNegative = true) := by
  refine ⟨?_, ?_, ?_, ?_⟩
  · intro h
    have hne : data.audience_gender ≠ "" := by
      intro h0
      rw [h0] at h
      exact absurd h (by decide)
    simp [targeting_payloads, h, hne]
  · intro h
    have hne : data.audience_gender ≠ "" := by
      intro h0
      rw [h0] at h
      exact absurd h (by decide)
    simp [targeting_payloads, h, hne]
  · intro h
    simp [targeting_payloads, h.1, h.2]
  · intro op hop
    unfold targeting_payloads at hop
    by_cases hcond : data.audience_gender ≠ "" ∧
        (pyUpper data.audience_gender = "MALE" ∨ pyUpper data.audience_gender = "FEMALE") <;>
      simp [hcond] at hop
    rcases hop with ⟨x, -, rfl⟩
    rfl

theorem gender_targeting_by_exclusion_witness :
    targeting_payloads "customers/123/campaigns/1" exMaleLowerRequest =
      [.gender "customers/123/campaigns/1" "FEMALE" true "ENABLED",
       .gender "customers/123/campaigns/1" "UNDETERMINED" true "ENABLED"] :=
  (gender_targeting_by_exclusion "customers/123/campaigns/1" exMaleLowerRequest).1 (by decide)

/-- C6: every run attempts its remote operations in the strict
budget-campaign-adGroup-keywords-creative-targeting order (asset uploads
sit inside the creative step); each payload consumes the resource name
the previous call returned; and every attempted operation except possibly
the final one succeeded, so a failure at any step prevents every later
step from running. -/
theorem provisioning_chain_order (api : AdsAPI) (data : CampaignRequest) :
    List.Pairwise (fun x y => stepKind x < stepKind y) (create_campaign api data).1 ∧
    (∀ cop, RemoteOp.createCampaign cop ∈ (create_campaign api data).1 →
      api.budgetResult (campaign_budget_payload data.budget) = .ok cop.campaign_budget) ∧
    (∀ gop, RemoteOp.createAdGroup gop ∈ (create_campaign api data).1 →
      ∃ b, api.budgetResult (campaign_budget_payload data.budget) = .ok b ∧
        api.campaignResult (campaign_resource_payload b data) = .ok gop.campaign) ∧
    (∀ kops, RemoteOp.createKeywords kops ∈ (create_campaign api data).1 →
      ∃ b c g, api.budgetResult (campaign_budget_payload data.budget) = .ok b ∧
        api.campaignResult (campaign_resource_payload b data) = .ok c ∧
        api.adGroupResult (ad_group_payload c) = .ok g ∧
        kops = keyword_payloads g data ∧ ∀ k ∈ kops, k.ad_group = g) ∧
    (∀ aop, RemoteOp.createAd aop ∈ (create_campaign api data).1 →
      ∃ b c, api.budgetResult (campaign_budget_payload data.budget) = .ok b ∧
        api.campaignResult (campaign_resource_payload b data) = .ok c ∧
        api.adGroupResult (ad_group_payload c) = .ok aop.ad_group) ∧
    (∀ cops, RemoteOp.createCriteria cops ∈ (create_campaign api data).1 →
      ∃ b c, api.budgetResult (campaign_budget_payload data.budget) = .ok b ∧
        api.campaignResult (campaign_resource_payload b data) = .ok c ∧
        cops = targeting_payloads c data ∧ ∀ cr ∈ cops, cr.campaignOf = c) ∧
    (∀ op ∈ (create_campaign api data).1.dropLast, attemptOk api op) := by
  refine ⟨pw_trace, ?_, ?_, ?_, ?_, ?_, att_trace⟩
  · intro cop h
    rcases mem_trace h with h | ⟨b, hb, h⟩
    · simp at h
    rcases h with h | ⟨c, hc, h⟩
    · simp at h
      rw [h]
      exact hb
    rcases h with h | ⟨g, hg, h⟩
    · simp at h
    rcases h with h | h | h | ⟨m, s, h⟩ | h <;> simp at h
  · intro gop h
    rcases mem_trace h with h | ⟨b, hb, h⟩
    · simp at h
    rcases h with h | ⟨c, hc, h⟩
    · simp at h
    rcases h with h | ⟨g, hg, h⟩
    · simp at h
      rw [h]
      exact ⟨b, hb, hc⟩
    rcases h with h | h | h | ⟨m, s, h⟩ | h <;> simp at h
  · intro kops h
    rcases mem_trace h with h | ⟨b, hb, h⟩
    · simp at h
    rcases h with h | ⟨c, hc, h⟩
    · simp at h
    rcases h with h | ⟨g, hg, h⟩
    · simp at h
    rcases h with h | h | h | ⟨m, s, h⟩ | h <;> simp at h
    rw [h]
    exact ⟨b, c, g, hb, hc, hg, rfl, keyword_payloads_ad_group⟩
  · intro aop h
    rcases mem_trace h with h | ⟨b, hb, h⟩
    · simp at h
    rcases h with h | ⟨c, hc, h⟩
    · simp at h
    rcases h with h | ⟨g, hg, h⟩
    · simp at h
    rcases h with h | h | h | ⟨m, s, h⟩ | h <;> simp at h
    rw [h]
    exact ⟨b, c, hb, hc, hg⟩
  · intro cops h
    rcases mem_trace h with h | ⟨b, hb, h⟩
    · simp at h
    rcases h with h | ⟨c, hc, h⟩
    · simp at h
    rcases h with h | ⟨g, hg, h⟩
    · simp at h
    rcases h with h | h | h | ⟨m, s, h⟩ | h <;> simp at h
    rw [h]
    exact ⟨b, c, hb, hc, rfl, targeting_payloads_campaignOf⟩

theorem provisioning_chain_order_witness :
    okApi.budgetResult (campaign_budget_payload exRequest.budget) =
      .ok (campaign_resource_payload "customers/123/campaignBudgets/1"
        exRequest).campaign_budget :=
  (provisioning_chain_order okApi exRequest).2.1
    (campaign_resource_payload "customers/123/campaignBudgets/1" exRequest) (by decide)

/-- C7 (amended): the requested age band is ignored entirely: no run ever
creates an age-range criterion, whatever the band. -/
theorem no_age_range_criterion_ever (crn : String) (data : CampaignRequest) :
    ((targeting_payloads crn data).all fun op => !op.isAgeRange) = true := by
  rw [List.all_eq_true]
  intro op hop
  unfold targeting_payloads at hop
  by_cases hcond : data.audience_gender ≠ "" ∧
      (pyUpper data.audience_gender = "MALE" ∨ pyUpper data.audience_gender = "FEMALE") <;>
    simp [hcond] at hop
  rcases hop with ⟨x, -, rfl⟩
  rfl

/-- C7 is false as stated: the request asks for the band [18, 24], which
contains the 18-24 bracket, and targeting is non-empty (two gender
criteria), yet no age-range criterion is created. -/
theorem age_band_ignored_cex :
    exRequest.audience_min_age ≤ 18 ∧ 24 ≤ exRequest.audience_max_age ∧
    targeting_payloads "customers/123/campaigns/1" exRequest ≠ [] ∧
    ((targeting_payloads "customers/123/campaigns/1" exRequest).filter
      fun op => op.isAgeRange) = [] := by
  decide

/-- C8: for every decodable source image (both dimensions at least one
pixel), the processed cover asset is exactly 1200 by 628 and the
processed square asset exactly 1200 by 1200, whatever the input aspect:
the crop only adjusts the aspect and the final resize forces the exact
target geometry. -/
theorem asset_dims_exact (d : Dims) (_hw : 1 ≤ d.w) (_hh : 1 ≤ d.h) :
    process_cover_photo d = { w := 1200, h := 628 } ∧
    process_square_image d = { w := 1200, h := 1200 } :=
  ⟨rfl, rfl⟩

theorem asset_dims_exact_witness :
    process_cover_photo { w := 2000, h := 1000 } = { w := 1200, h := 628 } ∧
    process_square_image { w := 2000, h := 1000 } = { w := 1200, h := 1200 } :=
  asset_dims_exact { w := 2000, h := 1000 } (by decide) (by decide)

/-- C9 (amended): the endpoint is synchronous: a success response exists
only when the whole chain has run, and it carries the campaign, ad-group
and ad resource names the chain produced; it is the provisioning result,
not an accepted/processing acknowledgment. -/
theorem response_carries_provisioning_result (api : AdsAPI) (data : CampaignRequest)
    (c g a : String) (h : (create_campaign api data).2 = .success c g a) :
    ∃ b, api.budgetResult (campaign_budget_payload data.budget) = .ok b ∧
      api.campaignResult (campaign_resource_payload b data) = .ok c ∧
      api.adGroupResult (ad_group_payload c) = .ok g ∧
      ∃ m s, api.adResult (responsive_display_ad_payload g m s data) = .ok a ∧
        RemoteOp.createAd (responsive_display_ad_payload g m s data) ∈
          (create_campaign api data).1 :=
  success_trace h

theorem response_carries_provisioning_result_witness :
    ∃ b, okApi.budgetResult (campaign_budget_payload exRequest.budget) = .ok b ∧
      okApi.campaignResult (campaign_resource_payload b exRequest) =
        .ok "customers/123/campaigns/1" ∧
      okApi.adGroupResult (ad_group_payload "customers/123/campaigns/1") =
        .ok "customers/123/adGroups/1" ∧
      ∃ m s, okApi.adResult (responsive_display_ad_payload "customers/123/adGroups/1"
          m s exRequest) = .ok "customers/123/adGroupAds/1" ∧
        RemoteOp.createAd (responsive_display_ad_payload "customers/123/adGroups/1"
          m s exRequest) ∈ (create_campaign okApi exRequest).1 :=
  response_carries_provisioning_result okApi exRequest "customers/123/campaigns/1"
    "customers/123/adGroups/1" "customers/123/adGroupAds/1" (by decide)

/-- C9 is false as stated: on an all-success oracle the concrete run
returns the final provisioning result with the created resource names,
and its trace already holds the last-step targeting operation: the
response is produced after the chain completes, not before. -/
theorem synchronous_result_response_cex :
    (create_campaign okApi exRequest).2 =
      RunResult.success "customers/123/campaigns/1" "customers/123/adGroups/1"
        "customers/123/adGroupAds/1" ∧
    RemoteOp.createCriteria (targeting_payloads "customers/123/campaigns/1" exRequest) ∈
      (create_campaign okApi exRequest).1 := by
  decide

/-- C10: at the public interface the budget is scaled only when it is a
JSON string: a string has its dollar signs removed, is stripped and
multiplied by 1,000,000, while a JSON number passes through unchanged and
is used directly as amount_micros, so the same numeral sent as a string
produces a platform budget 1,000,000 times the one sent as a number. -/
theorem budget_string_number_asymmetry (s : String) (n : Nat)
    (h : parseDigits (pyStrip (removeChar (Char.ofNat 36) s)) = some n) :
    convert_budget (.str s) = some ((n : Int) * 1000000) ∧
    convert_budget (.num (n : Int)) = some (n : Int) ∧
    (campaign_budget_payload ((n : Int) * 1000000)).amount_micros =
      1000000 * (campaign_budget_payload (n : Int)).amount_micros := by
  refine ⟨?_, rfl, ?_⟩
  · simp [convert_budget, h]
  · show (n : Int) * 1000000 = 1000000 * (n : Int)
    exact mul_comm _ _

theorem budget_string_number_asymmetry_witness :
    convert_budget (.str "$100") = some ((100 : Int) * 1000000) ∧
    convert_budget (.num (100 : Int)) = some (100 : Int) ∧
    (campaign_budget_payload ((100 : Int) * 1000000)).amount_micros =
      1000000 * (campaign_budget_payload (100 : Int)).amount_micros :=
  budget_string_number_asymmetry "$100" 100 (by decide)

end PublishGACampaign
